import Mathlib

/-!
# Verification of the Campus Image-to-GPS EXIF extractor

Shallow embedding of `e.py`: the numeric-coercion helper `_to_float`
(modelled as `to_float`), the DMS-to-decimal conversion `dms_to_decimal`,
and the per-image field extractor `extract_exif_fields`.

Python floats are modelled as exact rationals (`ℚ`); a Python exception
escaping a function is modelled with `Except Unit` (`.error ()` means an
uncaught exception).
-/

set_option autoImplicit false

namespace CampusGps

instance {ε α : Type} [DecidableEq ε] [DecidableEq α] : DecidableEq (Except ε α) :=
  fun a b =>
    match a, b with
    | .ok x, .ok y => if h : x = y then .isTrue (by rw [h]) else .isFalse (by simp [h])
    | .error x, .error y => if h : x = y then .isTrue (by rw [h]) else .isFalse (by simp [h])
    | .ok _, .error _ => .isFalse (by simp)
    | .error _, .ok _ => .isFalse (by simp)

/--
Model of the Python values that can reach the EXIF-processing code:
ints, floats, strings, byte strings, tuples, and `None`.

* `numStr s q` models a string `s` on which Python `float(s)` succeeds with
  value `q` (for example `"1.5"`); `str s` models a string on which
  `float(s)` raises (for example `"N"` or `"a"`).
* `bytes bs` models a byte string on which `float` raises, such as
  `b'\x01'` (one byte with value 1).
-/
inductive PyVal where
  | int (n : ℤ)
  | float (q : ℚ)
  | numStr (s : String) (q : ℚ)
  | str (s : String)
  | bytes (bs : List Nat)
  | tuple (xs : List PyVal)
  | none

/-- Python `float(x)`: `some q` when the conversion succeeds, `Option.none`
when it raises (`TypeError`/`ValueError`). Tuples, `None`, non-numeric
strings and non-numeric byte strings all raise. -/
def pyFloat : PyVal → Option ℚ
  | .int n => some (n : ℚ)
  | .float q => some q
  | .numStr _ q => some q
  | _ => Option.none

/-- The numeric value of a Python number (`int` or `float`); strings and
byte strings are not numbers for arithmetic operators. -/
def pyNum : PyVal → Option ℚ
  | .int n => some (n : ℚ)
  | .float q => some q
  | _ => Option.none

/-- Python true division `a / b`: defined (as `some`) only when both
operands are numbers and the divisor is nonzero; `Option.none` models a
raised `TypeError` or `ZeroDivisionError`. -/
def pyDiv (a b : PyVal) : Option ℚ :=
  match pyNum a, pyNum b with
  | some x, some y => if y = 0 then Option.none else some (x / y)
  | _, _ => Option.none

/-- Python `x == n` for an integer literal `n`: numeric equality for
numbers, `False` for every non-number (so `b'\x01' == 1` and `"1" == 1`
are both `False`). -/
def pyEqInt : PyVal → ℤ → Bool
  | .int m, n => m = n
  | .float q, n => q = (n : ℚ)
  | _, _ => false

/-- Python `x == t` for a string literal `t`: string equality when `x` is a
string, `False` otherwise (so `None == "S"` and `b'S' == "S"` are `False`). -/
def pyEqStr : PyVal → String → Bool
  | .numStr s _, t => s = t
  | .str s, t => s = t
  | _, _ => false

/-- Python truthiness `bool(x)`. -/
def truthy : PyVal → Bool
  | .int n => n ≠ 0
  | .float q => q ≠ 0
  | .numStr s _ => s ≠ ""
  | .str s => s ≠ ""
  | .bytes bs => bs ≠ []
  | .tuple xs => !xs.isEmpty
  | .none => false

/-- Python `len(x)`; `Option.none` models a raised `TypeError`
(ints, floats and `None` have no length). -/
def pyLen : PyVal → Option Nat
  | .numStr s _ => some s.length
  | .str s => some s.length
  | .bytes bs => some bs.length
  | .tuple xs => some xs.length
  | _ => Option.none

/-- The value of indexing a single character out of a Python string:
an ASCII digit is a string on which `float` succeeds with the digit's
value, any other character is a string on which `float` raises. -/
def charVal (c : Char) : PyVal :=
  if c.isDigit then .numStr (String.singleton c) ((c.toNat - 48 : ℤ) : ℚ)
  else .str (String.singleton c)

/-- Python `x[i]` for an index known to be in range (tuple and byte-string
indexing return the element, string indexing returns a one-character
string). Only called on values with a length and with `i < len x`. -/
def pyIndex : PyVal → Nat → PyVal
  | .tuple xs, i => xs.getD i .none
  | .numStr s _, i => charVal (s.data.getD i ' ')
  | .str s, i => charVal (s.data.getD i ' ')
  | .bytes bs, i => .int (bs.getD i 0)
  | _, _ => .none

/--
Model of `_to_float` (e.py lines 15–23):

    try:
        return float(x)
    except Exception:
        if isinstance(x, tuple) and len(x) == 2 and x[1] != 0:
            return x[0] / x[1]
        return None

The division in the `except` branch is not itself protected, so a failing
division (`x[0] / x[1]` raising) escapes the function: `.error ()`.
-/
def to_float (x : PyVal) : Except Unit (Option ℚ) :=
  match pyFloat x with
  | some q => .ok (some q)
  | Option.none =>
    match x with
    | .tuple [a, b] =>
      if pyEqInt b 0 then .ok Option.none
      else
        match pyDiv a b with
        | some q => .ok (some q)
        | Option.none => .error ()
    | _ => .ok Option.none

/--
Model of `dms_to_decimal` (e.py lines 26–44):

    if not dms or len(dms) != 3:
        return None
    deg = _to_float(dms[0]); minutes = _to_float(dms[1]); seconds = _to_float(dms[2])
    if deg is None or minutes is None or seconds is None:
        return None
    decimal = deg + (minutes / 60.0) + (seconds / 3600.0)
    if ref in ("S", "W"):
        decimal = -decimal
    return decimal

`len` on a value with no length raises, and the three `_to_float` calls are
all evaluated before the `None` checks, so an exception raised by any of
them propagates (`.error ()`).
-/
def dms_to_decimal (dms ref : PyVal) : Except Unit (Option ℚ) :=
  if truthy dms = false then .ok Option.none
  else
    match pyLen dms with
    | Option.none => .error ()
    | some n =>
      if n ≠ 3 then .ok Option.none
      else
        match to_float (pyIndex dms 0) with
        | .error e => .error e
        | .ok deg =>
          match to_float (pyIndex dms 1) with
          | .error e => .error e
          | .ok minutes =>
            match to_float (pyIndex dms 2) with
            | .error e => .error e
            | .ok seconds =>
              match deg, minutes, seconds with
              | some d, some m, some s =>
                let decimal := d + m / 60 + s / 3600
                .ok (some (if pyEqStr ref "S" || pyEqStr ref "W" then -decimal else decimal))
              | _, _, _ => .ok Option.none

/-- The characters removed by Python `str.strip()` with no argument
(ASCII whitespace; the claims only involve ASCII strings). -/
def isPySpace (c : Char) : Bool :=
  c == ' ' || c == '\t' || c == '\n' || c == '\r' || c == '\x0b' || c == '\x0c'

/-- `str.strip()` on a character list: drop whitespace from the front, then
from the back. -/
def stripChars (l : List Char) : List Char :=
  ((l.dropWhile isPySpace).reverse.dropWhile isPySpace).reverse

/-- Model of Python `s.strip()`. -/
def pyStrip (s : String) : String :=
  ⟨stripChars s.data⟩

/--
The GPS tag set obtained from one image (e.py lines 87–91): the dictionary
`gps` after every key of `gps_info` has been translated through `GPSTAGS`,
restricted to the six tags the extractor looks up. Each field is the value
stored under the tag, or `Option.none` when the tag is absent (in which
case `gps.get(...)` returns Python `None`, and `gps.get("GPSAltitudeRef", 0)`
returns the default `0`).
-/
structure GpsMap where
  gpsLatitude : Option PyVal
  gpsLatitudeRef : Option PyVal
  gpsLongitude : Option PyVal
  gpsLongitudeRef : Option PyVal
  gpsAltitude : Option PyVal
  gpsAltitudeRef : Option PyVal

/--
What the imaging layer (PIL) yields for one input file, as seen by
`extract_exif_fields`:

* `openFailure` — `Image.open(image_path)` or `im.getexif()` raised, before
  any tag was read;
* `noExif` — `getexif()` returned a falsy EXIF container (`if not exif`);
* `withExif make model gps` — a truthy EXIF container whose `Make` (tag 271)
  and `Model` (tag 272) entries are the given strings (the two tags hold
  EXIF ASCII strings, on which Python `str()` is the identity), and whose
  GPS lookup (the `get_ifd(34853)` attempt followed by the flat
  `exif.get(34853)` fallback, e.py lines 75–85) produced the given tag set,
  `Option.none` when neither form yielded a truthy structure.
-/
inductive ExifInput where
  | openFailure
  | noExif
  | withExif (make model : Option String) (gps : Option GpsMap)

/-- The record (`data` dictionary) produced for one image, one field per
output column. -/
structure ImageRecord where
  photoPath : String
  latitude : Option ℚ
  longitude : Option ℚ
  altitude : Option ℚ
  makeModel : Option String
  dayNight : String
deriving DecidableEq

/-- The freshly initialised `data` dictionary of `extract_exif_fields`
(e.py lines 51–58): path populated, every metadata field absent. -/
def emptyRecord (path : String) : ImageRecord :=
  { photoPath := path
    latitude := Option.none
    longitude := Option.none
    altitude := Option.none
    makeModel := Option.none
    dayNight := "" }

/-- The Make/Model combination of e.py lines 66–72:

    make_str = str(make).strip() if make is not None else ""
    model_str = str(model).strip() if model is not None else ""
    if make_str or model_str:
        data["Make/Model"] = f"{make_str} {model_str}".strip()
-/
def makeModelField (make model : Option String) : Option String :=
  let make_str := (make.map pyStrip).getD ""
  let model_str := (model.map pyStrip).getD ""
  if make_str ≠ "" ∨ model_str ≠ "" then
    some (pyStrip (make_str ++ " " ++ model_str))
  else
    Option.none

/--
The `try:` block of `extract_exif_fields` (e.py lines 60–107), with the
mutable `data` dictionary threaded explicitly: `.ok d` is a normal
`return data`, `.error d` means an exception escaped to the outer handler
while the dictionary held `d`. Latitude and longitude are both computed
before either is stored, so an exception during the longitude conversion
loses the latitude as well; the altitude block runs after both were stored.
-/
def extract_body (path : String) (i : ExifInput) : Except ImageRecord ImageRecord :=
  let data := emptyRecord path
  match i with
  | .openFailure => .error data
  | .noExif => .ok data
  | .withExif make model gps =>
    let data := { data with makeModel := makeModelField make model }
    match gps with
    | Option.none => .ok data
    | some g =>
      match dms_to_decimal (g.gpsLatitude.getD .none) (g.gpsLatitudeRef.getD .none) with
      | .error _ => .error data
      | .ok lat =>
        match dms_to_decimal (g.gpsLongitude.getD .none) (g.gpsLongitudeRef.getD .none) with
        | .error _ => .error data
        | .ok lon =>
          let data := { data with latitude := lat, longitude := lon }
          match to_float (g.gpsAltitude.getD .none) with
          | .error _ => .error data
          | .ok alt_val =>
            match alt_val with
            | Option.none => .ok data
            | some v =>
              let alt_ref := g.gpsAltitudeRef.getD (.int 0)
              .ok { data with
                      altitude := some (if pyEqInt alt_ref 1 then -v else v) }

/-- Model of `extract_exif_fields` (e.py lines 47–112): the outer
`except Exception: return data` turns an escaped exception into a normal
return of the dictionary as it stood, so the function always returns a
record and never raises. -/
def extract_exif_fields (path : String) (i : ExifInput) : ImageRecord :=
  match extract_body path i with
  | .ok d => d
  | .error d => d

/-- A `GpsMap` with every tag absent, used as a base for concrete inputs. -/
def gpsEmpty : GpsMap :=
  { gpsLatitude := Option.none
    gpsLatitudeRef := Option.none
    gpsLongitude := Option.none
    gpsLongitudeRef := Option.none
    gpsAltitude := Option.none
    gpsAltitudeRef := Option.none }

/-- A concrete malformed input: a readable image with a `Make` tag and a GPS
latitude triple whose first component is the pair `("a", "b")`, on which the
numeric coercion raises mid-body. -/
def badGpsInput : ExifInput :=
  .withExif (some "Canon") Option.none
    (some { gpsEmpty with
              gpsLatitude := some (.tuple [.tuple [.str "a", .str "b"], .int 1, .int 2]) })

/-! ## Auxiliary lemmas about `dropWhile` and `stripChars` -/

section Strip

variable {α : Type} (p : α → Bool)

theorem head_of_dropWhile_eq_some {l : List α} {c : α}
    (h : (l.dropWhile p).head? = some c) : p c = false := by
  induction l with
  | nil => simp at h
  | cons a t ih =>
    rw [List.dropWhile_cons] at h
    by_cases hp : p a
    · exact ih (by simpa [hp] using h)
    · rw [if_neg hp] at h
      simp only [List.head?_cons, Option.some.injEq] at h
      subst h
      simpa using hp

theorem dropWhile_eq_self_of_head {l : List α}
    (h : ∀ c, l.head? = some c → p c = false) : l.dropWhile p = l := by
  cases l with
  | nil => rfl
  | cons a t => rw [List.dropWhile_cons, h a rfl]; simp

theorem exists_dropWhile_decomp (l : List α) : ∃ t, l = t ++ l.dropWhile p := by
  induction l with
  | nil => exact ⟨[], rfl⟩
  | cons a t ih =>
    rw [List.dropWhile_cons]
    by_cases hp : p a
    · obtain ⟨u, hu⟩ := ih
      exact ⟨a :: u, by simp [hp, ← hu]⟩
    · exact ⟨[], by simp [hp]⟩

theorem length_dropWhile_le' (l : List α) : (l.dropWhile p).length ≤ l.length := by
  obtain ⟨t, ht⟩ := exists_dropWhile_decomp p l
  calc (l.dropWhile p).length ≤ t.length + (l.dropWhile p).length := Nat.le_add_left _ _
    _ = l.length := by rw [← List.length_append, ← ht]

theorem dropWhile_eq_self_of_length {l : List α}
    (h : (l.dropWhile p).length = l.length) : l.dropWhile p = l := by
  obtain ⟨t, ht⟩ := exists_dropWhile_decomp p l
  have hlen : t.length + (l.dropWhile p).length = l.length := by
    rw [← List.length_append, ← ht]
  have : t.length = 0 := by omega
  have : t = [] := List.length_eq_zero.mp this
  subst this
  simpa using ht.symm

theorem head_false_of_dropWhile_cons {c : α} {t : List α}
    (h : (c :: t).dropWhile p = c :: t) : p c = false := by
  by_cases hp : p c
  · rw [List.dropWhile_cons, if_pos hp] at h
    have := length_dropWhile_le' p t
    have : (t.dropWhile p).length = t.length + 1 := by rw [h]; simp
    omega
  · simpa using hp

theorem dropWhile_idem (l : List α) : (l.dropWhile p).dropWhile p = l.dropWhile p :=
  dropWhile_eq_self_of_head p fun _ hc => head_of_dropWhile_eq_some p hc

theorem dropWhile_append_of_fix {xs : List α} (ys : List α)
    (hx : xs.dropWhile p = xs) (hne : xs ≠ []) :
    (xs ++ ys).dropWhile p = xs ++ ys := by
  cases xs with
  | nil => exact absurd rfl hne
  | cons c t =>
    have hc := head_false_of_dropWhile_cons p hx
    rw [List.cons_append, List.dropWhile_cons, hc]
    simp

theorem stripChars_fix_parts {l : List Char} (h : stripChars l = l) :
    l.dropWhile isPySpace = l ∧ l.reverse.dropWhile isPySpace = l.reverse := by
  have hlen1 : (stripChars l).length ≤ (l.dropWhile isPySpace).length := by
    unfold stripChars
    calc ((((l.dropWhile isPySpace).reverse.dropWhile isPySpace)).reverse).length
        = ((l.dropWhile isPySpace).reverse.dropWhile isPySpace).length := by
          rw [List.length_reverse]
      _ ≤ (l.dropWhile isPySpace).reverse.length := length_dropWhile_le' _ _
      _ = (l.dropWhile isPySpace).length := by rw [List.length_reverse]
  have hlen2 : (l.dropWhile isPySpace).length ≤ l.length := length_dropWhile_le' _ _
  have hA : l.dropWhile isPySpace = l := by
    apply dropWhile_eq_self_of_length
    have := congrArg List.length h
    omega
  refine ⟨hA, ?_⟩
  have h' : stripChars l = l := h
  unfold stripChars at h'
  rw [hA] at h'
  have := congrArg List.reverse h'
  rwa [List.reverse_reverse] at this

theorem stripChars_idem (l : List Char) : stripChars (stripChars l) = stripChars l := by
  set A := l.dropWhile isPySpace with hA
  set B := A.reverse.dropWhile isPySpace with hB
  have hS : stripChars l = B.reverse := rfl
  -- `stripChars l` is a prefix of `A`
  obtain ⟨t, ht⟩ := exists_dropWhile_decomp isPySpace A.reverse
  have hpre : A = B.reverse ++ t.reverse := by
    have := congrArg List.reverse ht
    rwa [List.reverse_append, List.reverse_reverse, ← hB] at this
  have hfront : B.reverse.dropWhile isPySpace = B.reverse := by
    apply dropWhile_eq_self_of_head
    intro c hc
    have hAhead : A.head? = some c := by
      cases hBr : B.reverse with
      | nil => rw [hBr] at hc; simp at hc
      | cons d r =>
        rw [hBr] at hc
        simp only [List.head?_cons, Option.some.injEq] at hc
        rw [hpre, hBr, List.cons_append, List.head?_cons, hc]
    have hl : (l.dropWhile isPySpace).head? = some c := by rw [← hA]; exact hAhead
    exact head_of_dropWhile_eq_some isPySpace hl
  have hback : (B.reverse).reverse.dropWhile isPySpace = (B.reverse).reverse := by
    rw [List.reverse_reverse, hB]
    exact dropWhile_idem _ _
  rw [hS]
  unfold stripChars
  rw [hfront, hback]
  exact List.reverse_reverse _

theorem stripChars_space_cons (l : List Char) : stripChars (' ' :: l) = stripChars l := by
  unfold stripChars
  rw [List.dropWhile_cons]
  norm_num [isPySpace]

theorem stripChars_append_space_append {ms mods : List Char}
    (hms : stripChars ms = ms) (hmods : stripChars mods = mods)
    (h1 : ms ≠ []) (h2 : mods ≠ []) :
    stripChars (ms ++ ' ' :: mods) = ms ++ ' ' :: mods := by
  obtain ⟨hmsf, hmsb⟩ := stripChars_fix_parts hms
  obtain ⟨hmodsf, hmodsb⟩ := stripChars_fix_parts hmods
  unfold stripChars
  rw [dropWhile_append_of_fix _ _ hmsf h1]
  have hrev : (ms ++ ' ' :: mods).reverse = mods.reverse ++ (' ' :: ms.reverse) := by
    rw [List.reverse_append, List.reverse_cons, List.append_assoc]
    simp
  rw [hrev, dropWhile_append_of_fix _ _ hmodsb (by simpa using h2), ← hrev,
    List.reverse_reverse]

theorem stripChars_append_space {ms : List Char}
    (hms : stripChars ms = ms) (h1 : ms ≠ []) :
    stripChars (ms ++ [' ']) = ms := by
  obtain ⟨hmsf, hmsb⟩ := stripChars_fix_parts hms
  unfold stripChars
  rw [dropWhile_append_of_fix _ _ hmsf h1]
  rw [List.reverse_append]
  simp only [List.reverse_cons, List.reverse_nil, List.nil_append, List.singleton_append]
  rw [List.dropWhile_cons]
  norm_num [isPySpace]
  rw [hmsb, List.reverse_reverse]

end Strip

/-! ## String-level facts about `pyStrip` -/

theorem string_eq_of_data {a b : String} (h : a.data = b.data) : a = b := by
  cases a; cases b; exact congrArg String.mk h

theorem data_append (a b : String) : (a ++ b).data = a.data ++ b.data := rfl

theorem data_eq_nil_iff {s : String} : s.data = [] ↔ s = "" := by
  constructor
  · intro h; exact string_eq_of_data (by simpa using h)
  · intro h; subst h; rfl

theorem pyStrip_idem (s : String) : pyStrip (pyStrip s) = pyStrip s :=
  string_eq_of_data (stripChars_idem s.data)

theorem pyStrip_empty : pyStrip "" = "" := rfl

/-- The image of `pyStrip` consists of strip-fixed strings. -/
theorem pyStrip_getD_fix (o : Option String) :
    pyStrip ((o.map pyStrip).getD "") = (o.map pyStrip).getD "" := by
  cases o with
  | none => rfl
  | some s => simpa using pyStrip_idem s

/-- Stripping a single-space join of two already-stripped strings: the join
collapses to whichever side is non-empty. -/
theorem pyStrip_join {a b : String} (ha : pyStrip a = a) (hb : pyStrip b = b) :
    pyStrip (a ++ " " ++ b) =
      if a = "" then b else if b = "" then a else a ++ " " ++ b := by
  have hdata : (a ++ " " ++ b).data = a.data ++ ' ' :: b.data := by
    rw [data_append, data_append]
    rw [show (" " : String).data = [' '] from rfl, List.append_assoc]
    rfl
  have ha' : stripChars a.data = a.data := congrArg String.data ha
  have hb' : stripChars b.data = b.data := congrArg String.data hb
  by_cases e1 : a = ""
  · subst e1
    rw [if_pos rfl]
    apply string_eq_of_data
    show stripChars ("" ++ " " ++ b).data = b.data
    rw [hdata, show ("" : String).data = [] from rfl, List.nil_append,
      stripChars_space_cons]
    exact hb'
  · by_cases e2 : b = ""
    · subst e2
      rw [if_neg e1, if_pos rfl]
      apply string_eq_of_data
      show stripChars (a ++ " " ++ "").data = a.data
      rw [hdata, show ("" : String).data = [] from rfl]
      exact stripChars_append_space ha' (fun hh => e1 (data_eq_nil_iff.mp hh))
    · rw [if_neg e1, if_neg e2]
      apply string_eq_of_data
      show stripChars (a ++ " " ++ b).data = (a ++ " " ++ b).data
      rw [hdata]
      exact stripChars_append_space_append ha' hb'
        (fun hh => e1 (data_eq_nil_iff.mp hh))
        (fun hh => e2 (data_eq_nil_iff.mp hh))

/--
Characterisation of the Make/Model combination: with the two trimmed tag
values, the field is the space-joined pair when both are non-empty, the
single non-empty one when only one is, and absent when both are empty.
-/
theorem makeModelField_spec (make model : Option String) :
    makeModelField make model =
      (if (make.map pyStrip).getD "" = "" then
        (if (model.map pyStrip).getD "" = "" then Option.none
         else some ((model.map pyStrip).getD ""))
      else if (model.map pyStrip).getD "" = "" then
        some ((make.map pyStrip).getD "")
      else
        some ((make.map pyStrip).getD "" ++ " " ++ (model.map pyStrip).getD "")) := by
  unfold makeModelField
  dsimp only
  rw [pyStrip_join (pyStrip_getD_fix make) (pyStrip_getD_fix model)]
  by_cases e1 : (make.map pyStrip).getD "" = "" <;>
    by_cases e2 : (model.map pyStrip).getD "" = "" <;>
    simp [e1, e2]

/-! ## Helper lemmas about the embedded functions -/

/-- Evaluation of `dms_to_decimal` on a three-component tuple whose
components all coerce: the decimal formula, negated exactly on the
`ref in ("S", "W")` test. -/
theorem dms_valid_eval (a b c : PyVal) (qa qb qc : ℚ) (ref : PyVal)
    (ha : to_float a = .ok (some qa)) (hb : to_float b = .ok (some qb))
    (hc : to_float c = .ok (some qc)) :
    dms_to_decimal (.tuple [a, b, c]) ref =
      .ok (some (if pyEqStr ref "S" || pyEqStr ref "W"
                 then -(qa + qb / 60 + qc / 3600)
                 else qa + qb / 60 + qc / 3600)) := by
  simp [dms_to_decimal, truthy, pyLen, pyIndex, ha, hb, hc]

/-- The outer `except Exception: return data` handler: an exception escaping
the body returns the dictionary as it stood. -/
theorem extract_of_error (path : String) (i : ExifInput) (d : ImageRecord)
    (h : extract_body path i = .error d) : extract_exif_fields path i = d := by
  unfold extract_exif_fields
  rw [h]

/-- The Photo Path field is the input path on every branch. -/
theorem extract_photoPath (path : String) (i : ExifInput) :
    (extract_exif_fields path i).photoPath = path := by
  cases i with
  | openFailure => rfl
  | noExif => rfl
  | withExif make model gps =>
    cases gps with
    | none => rfl
    | some g =>
      unfold extract_exif_fields extract_body
      dsimp only
      cases h1 : dms_to_decimal (g.gpsLatitude.getD .none) (g.gpsLatitudeRef.getD .none) with
      | error e => rfl
      | ok lat =>
        cases h2 : dms_to_decimal (g.gpsLongitude.getD .none) (g.gpsLongitudeRef.getD .none) with
        | error e => rfl
        | ok lon =>
          cases h3 : to_float (g.gpsAltitude.getD .none) with
          | error e => rfl
          | ok altv => cases altv <;> rfl

/-- The Make/Model field of the result is `makeModelField make model` on
every branch of the GPS processing, including the branches where an
exception is caught by the outer handler. -/
theorem extract_makeModel (path : String) (make model : Option String)
    (gps : Option GpsMap) :
    (extract_exif_fields path (.withExif make model gps)).makeModel =
      makeModelField make model := by
  cases gps with
  | none => rfl
  | some g =>
    unfold extract_exif_fields extract_body
    dsimp only
    cases h1 : dms_to_decimal (g.gpsLatitude.getD .none) (g.gpsLatitudeRef.getD .none) with
    | error e => rfl
    | ok lat =>
      cases h2 : dms_to_decimal (g.gpsLongitude.getD .none) (g.gpsLongitudeRef.getD .none) with
      | error e => rfl
      | ok lon =>
        cases h3 : to_float (g.gpsAltitude.getD .none) with
        | error e => rfl
        | ok altv => cases altv <;> rfl

/-- The Altitude field produced by e.py lines 100–106 when the latitude and
longitude conversions did not raise: the coerced raw value, negated exactly
on the `alt_ref == 1` test, and absent when the coercion returned `None`. -/
theorem extract_altitude (path : String) (make model : Option String) (g : GpsMap)
    (rlat rlon : Option ℚ)
    (hlat : dms_to_decimal (g.gpsLatitude.getD .none) (g.gpsLatitudeRef.getD .none)
              = .ok rlat)
    (hlon : dms_to_decimal (g.gpsLongitude.getD .none) (g.gpsLongitudeRef.getD .none)
              = .ok rlon) :
    (extract_exif_fields path (.withExif make model (some g))).altitude =
      (match to_float (g.gpsAltitude.getD .none) with
       | .ok (some v) => some (if pyEqInt (g.gpsAltitudeRef.getD (.int 0)) 1 then -v else v)
       | _ => Option.none) := by
  unfold extract_exif_fields extract_body
  dsimp only
  rw [hlat, hlon]
  cases halt : to_float (g.gpsAltitude.getD .none) with
  | error e => rfl
  | ok altv => cases altv <;> rfl

/-- The Latitude and Longitude fields when both conversions return normally. -/
theorem extract_latlon (path : String) (make model : Option String) (g : GpsMap)
    (rlat rlon : Option ℚ)
    (hlat : dms_to_decimal (g.gpsLatitude.getD .none) (g.gpsLatitudeRef.getD .none)
              = .ok rlat)
    (hlon : dms_to_decimal (g.gpsLongitude.getD .none) (g.gpsLongitudeRef.getD .none)
              = .ok rlon) :
    (extract_exif_fields path (.withExif make model (some g))).latitude = rlat ∧
    (extract_exif_fields path (.withExif make model (some g))).longitude = rlon := by
  unfold extract_exif_fields extract_body
  dsimp only
  rw [hlat, hlon]
  cases halt : to_float (g.gpsAltitude.getD .none) with
  | error e => exact ⟨rfl, rfl⟩
  | ok altv => cases altv <;> exact ⟨rfl, rfl⟩

theorem to_float_of_pyFloat {x : PyVal} {q : ℚ} (h : pyFloat x = some q) :
    to_float x = .ok (some q) := by
  unfold to_float
  rw [h]

theorem to_float_tuple2 (a b : PyVal) :
    to_float (.tuple [a, b]) =
      (if pyEqInt b 0 then .ok Option.none
       else
        match pyDiv a b with
        | some q => .ok (some q)
        | Option.none => .error ()) := rfl

theorem to_float_not_tuple2 {x : PyVal} (hf : pyFloat x = Option.none)
    (hx : ∀ a b, x ≠ .tuple [a, b]) : to_float x = .ok Option.none := by
  unfold to_float
  rw [hf]
  cases x with
  | tuple xs =>
    rcases xs with _ | ⟨a, _ | ⟨b, _ | ⟨c, rest⟩⟩⟩
    · rfl
    · rfl
    · exact absurd rfl (hx a b)
    · rfl
  | int n => rfl
  | float q => rfl
  | numStr s q => rfl
  | str s => rfl
  | bytes bs => rfl
  | none => rfl

theorem pyDiv_eq_none_of_zero {b : PyVal} (a : PyVal) (h : pyEqInt b 0 = true) :
    pyDiv a b = Option.none := by
  cases b with
  | int m =>
    have hm : m = 0 := by simpa [pyEqInt] using h
    subst hm
    unfold pyDiv pyNum
    cases a <;> simp
  | float q =>
    have hq : q = 0 := by simpa [pyEqInt] using h
    subst hq
    unfold pyDiv pyNum
    cases a <;> simp
  | numStr s q => simp [pyEqInt] at h
  | str s => simp [pyEqInt] at h
  | bytes bs => simp [pyEqInt] at h
  | tuple xs => simp [pyEqInt] at h
  | none => simp [pyEqInt] at h

example : to_float (.int 100) = .ok (some 100) := rfl

example : makeModelField (some "Canon ") (some " EOS") = some "Canon EOS" := rfl

example : makeModelField (some "  ") Option.none = Option.none := rfl

example : makeModelField Option.none (some "Pixel 7") = some "Pixel 7" := rfl

example : extract_exif_fields "p" .noExif = emptyRecord "p" := rfl

example :
    (extract_exif_fields "p"
        (.withExif (some "Canon") Option.none
          (some { gpsEmpty with
                    gpsLatitude := some (.tuple [.tuple [.str "a", .str "b"], .int 1, .int 2]) }))).makeModel
      = some "Canon" := rfl

example :
    extract_body "p"
        (.withExif (some "Canon") Option.none
          (some { gpsEmpty with
                    gpsLatitude := some (.tuple [.tuple [.str "a", .str "b"], .int 1, .int 2]) }))
      = .error { emptyRecord "p" with makeModel := some "Canon" } := rfl

example : to_float (.tuple [.int 1, .int 0]) = .ok Option.none := rfl

example : to_float (.tuple [.str "a", .str "b"]) = .error () := rfl

example :
    dms_to_decimal (.tuple [.int 40, .int 26, .int 46]) (.str "N") =
      .ok (some (40 + 26 / 60 + 46 / 3600)) := by
  simp [dms_to_decimal, truthy, pyLen, pyIndex, to_float, pyFloat, pyEqStr]

example :
    dms_to_decimal (.tuple [.int 0, .int (-60), .int 0]) (.str "N") =
      .ok (some (-1)) := by
  simp [dms_to_decimal, truthy, pyLen, pyIndex, to_float, pyFloat, pyEqStr]

/-- Evaluation of `dms_to_decimal` on a three-component tuple in terms of
the three coercion results (whatever they are). -/
theorem dms_eval_components (a b c : PyVal) (ra rb rc : Option ℚ) (ref : PyVal)
    (ha : to_float a = .ok ra) (hb : to_float b = .ok rb)
    (hc : to_float c = .ok rc) :
    dms_to_decimal (.tuple [a, b, c]) ref =
      (match ra, rb, rc with
       | some d, some m, some s =>
         .ok (some (if pyEqStr ref "S" || pyEqStr ref "W"
                    then -(d + m / 60 + s / 3600)
                    else d + m / 60 + s / 3600))
       | _, _, _ => .ok Option.none) := by
  cases ra <;> cases rb <;> cases rc <;>
    simp [dms_to_decimal, truthy, pyLen, pyIndex, ha, hb, hc]

/-! ## Claim theorems -/

/--
Claim C1: for every DMS triple of exactly three components that all succeed
Numeric Coercion, `dms_to_decimal` returns `degrees + minutes/60 +
seconds/3600`, negated exactly when the reference compares equal to the
string `"S"` or `"W"`; any other reference leaves the sign unchanged.
-/
theorem dms_to_decimal_formula (a b c : PyVal) (qa qb qc : ℚ) (ref : PyVal)
    (ha : to_float a = .ok (some qa)) (hb : to_float b = .ok (some qb))
    (hc : to_float c = .ok (some qc)) :
    dms_to_decimal (.tuple [a, b, c]) ref =
      .ok (some (if pyEqStr ref "S" || pyEqStr ref "W"
                 then -(qa + qb / 60 + qc / 3600)
                 else qa + qb / 60 + qc / 3600)) :=
  dms_valid_eval a b c qa qb qc ref ha hb hc

/-- Witness for `dms_to_decimal_formula` at the triple `(40, 26, 46)` with
reference `"W"`. -/
theorem dms_to_decimal_formula_witness :
    dms_to_decimal (.tuple [.int 40, .int 26, .int 46]) (.str "W") =
      .ok (some (-(40 + 26 / 60 + 46 / 3600))) := by
  have h := dms_to_decimal_formula (.int 40) (.int 26) (.int 46) 40 26 46
    (.str "W") rfl rfl rfl
  rw [h]
  simp [pyEqStr]

/--
Claim C4 (amended): a missing DMS input, a tuple of length ≠ 3, and a
three-component tuple with a component on which Numeric Coercion *returns*
`None` (none of the components raising) all give the `None` result, which
is distinct from `0.0` and is not an error; a component on which the
coercion raises instead propagates the exception.
-/
theorem dms_unavailable_spec :
    (∀ ref : PyVal, dms_to_decimal PyVal.none ref = .ok Option.none) ∧
    (∀ (xs : List PyVal) (ref : PyVal), xs.length ≠ 3 →
       dms_to_decimal (.tuple xs) ref = .ok Option.none) ∧
    (∀ (a b c ref : PyVal) (ra rb rc : Option ℚ),
       to_float a = .ok ra → to_float b = .ok rb → to_float c = .ok rc →
       (ra = Option.none ∨ rb = Option.none ∨ rc = Option.none) →
       dms_to_decimal (.tuple [a, b, c]) ref = .ok Option.none) ∧
    ((.ok Option.none : Except Unit (Option ℚ)) ≠ .ok (some 0)) ∧
    ((.ok Option.none : Except Unit (Option ℚ)) ≠ .error ()) := by
  refine ⟨fun ref => rfl, ?_, ?_, by simp, by simp⟩
  · intro xs ref h
    cases xs with
    | nil => rfl
    | cons y ys =>
      simp [dms_to_decimal, truthy, pyLen]
      intro h2
      exact absurd (show (y :: ys).length = 3 by simp [h2]) h
  · intro a b c ref ra rb rc ha hb hc hnone
    rw [dms_eval_components a b c ra rb rc ref ha hb hc]
    rcases hnone with rfl | rfl | rfl
    · rfl
    · cases ra <;> rfl
    · cases ra <;> cases rb <;> rfl

/--
Claim C4 counterexample: a three-component tuple whose first component is
the pair `("a", "b")` makes the first `_to_float` call raise, and
`dms_to_decimal` propagates the exception instead of returning `None`.
-/
theorem dms_unavailable_counterexample :
    dms_to_decimal (.tuple [.tuple [.str "a", .str "b"], .int 1, .int 2]) PyVal.none
        = .error () ∧
    (.error () : Except Unit (Option ℚ)) ≠ .ok Option.none :=
  ⟨rfl, by simp⟩

/-- Witness for `dms_unavailable_spec` at a length-2 tuple. -/
theorem dms_unavailable_spec_witness :
    dms_to_decimal (.tuple [.int 1, .int 2]) PyVal.none = .ok Option.none :=
  dms_unavailable_spec.2.1 [.int 1, .int 2] PyVal.none (by decide)

/--
Claim C6: for every valid DMS triple, the result with reference `"S"`
(respectively `"W"`) is the negation of the result with reference `"N"`
(respectively `"E"`).
-/
theorem dms_ref_negation (a b c : PyVal) (qa qb qc : ℚ)
    (ha : to_float a = .ok (some qa)) (hb : to_float b = .ok (some qb))
    (hc : to_float c = .ok (some qc)) :
    (∀ q : ℚ, dms_to_decimal (.tuple [a, b, c]) (.str "N") = .ok (some q) →
       dms_to_decimal (.tuple [a, b, c]) (.str "S") = .ok (some (-q))) ∧
    (∀ q : ℚ, dms_to_decimal (.tuple [a, b, c]) (.str "E") = .ok (some q) →
       dms_to_decimal (.tuple [a, b, c]) (.str "W") = .ok (some (-q))) := by
  constructor <;>
  · intro q hq
    rw [dms_valid_eval a b c qa qb qc _ ha hb hc] at hq ⊢
    simp [pyEqStr] at hq ⊢
    linarith

/-- Witness for `dms_ref_negation` at the triple `(1, 2, 3)`. -/
theorem dms_ref_negation_witness :
    dms_to_decimal (.tuple [.int 1, .int 2, .int 3]) (.str "S") =
      .ok (some (-(1 + 2 / 60 + 3 / 3600))) := by
  refine (dms_ref_negation (.int 1) (.int 2) (.int 3) 1 2 3 rfl rfl rfl).1
    (1 + 2 / 60 + 3 / 3600) ?_
  rw [dms_valid_eval (.int 1) (.int 2) (.int 3) 1 2 3 (.str "N") rfl rfl rfl]
  simp [pyEqStr]

/--
Claim C9 (amended): for every valid DMS triple whose degrees, minutes and
seconds coercions are all non-negative and whose reference is `"N"`, `"E"`
or absent, the decimal result is non-negative. (Non-negativity of the
degrees component alone is not enough: a negative minutes or seconds
component can drive the total below zero.)
-/
theorem dms_nonneg_spec (a b c : PyVal) (qa qb qc : ℚ) (ref : PyVal)
    (ha : to_float a = .ok (some qa)) (hb : to_float b = .ok (some qb))
    (hc : to_float c = .ok (some qc))
    (h0a : 0 ≤ qa) (h0b : 0 ≤ qb) (h0c : 0 ≤ qc)
    (href : ref = .str "N" ∨ ref = .str "E" ∨ ref = PyVal.none) :
    dms_to_decimal (.tuple [a, b, c]) ref = .ok (some (qa + qb / 60 + qc / 3600)) ∧
    0 ≤ qa + qb / 60 + qc / 3600 := by
  have hb' : 0 ≤ qb / 60 := div_nonneg h0b (by norm_num)
  have hc' : 0 ≤ qc / 3600 := div_nonneg h0c (by norm_num)
  refine ⟨?_, by linarith⟩
  rw [dms_valid_eval a b c qa qb qc ref ha hb hc]
  rcases href with rfl | rfl | rfl <;> simp [pyEqStr]

/--
Claim C9 counterexample: the triple `(0, -60, 0)` is valid (three
components, all coercing) and has non-negative degrees, but with reference
`"N"` the decimal result is `-1`, which is negative.
-/
theorem dms_nonneg_counterexample :
    dms_to_decimal (.tuple [.int 0, .int (-60), .int 0]) (.str "N") = .ok (some (-1)) ∧
    ((-1 : ℚ) < 0) := by
  constructor
  · simp [dms_to_decimal, truthy, pyLen, pyIndex, to_float, pyFloat, pyEqStr]
  · norm_num

/-- Witness for `dms_nonneg_spec` at the triple `(12, 30, 0)` with
reference `"E"`. -/
theorem dms_nonneg_spec_witness :
    dms_to_decimal (.tuple [.int 12, .int 30, .int 0]) (.str "E") =
      .ok (some (12 + 30 / 60 + 0 / 3600)) :=
  (dms_nonneg_spec (.int 12) (.int 30) (.int 0) 12 30 0 (.str "E") rfl rfl rfl
    (by norm_num) (by norm_num) (by norm_num) (Or.inr (Or.inl rfl))).1

/--
Claim C3 (amended): `_to_float` returns a float when the value is directly
numeric or a two-element pair with nonzero denominator whose division is
defined, returns `None` (without raising) for every other input — provided
the input is not a two-element pair with a non-numeric component whose
second element compares unequal to `0`; on such a pair the division inside
the `except` block raises and the exception escapes.
-/
theorem to_float_total_spec (x : PyVal)
    (hx : ∀ a b, x = PyVal.tuple [a, b] → pyEqInt b 0 = false → (pyDiv a b).isSome = true) :
    to_float x ≠ .error () ∧
    (∀ q : ℚ, pyFloat x = some q → to_float x = .ok (some q)) ∧
    (pyFloat x = Option.none → (∀ a b : PyVal, x ≠ .tuple [a, b]) →
      to_float x = .ok Option.none) ∧
    (∀ a b : PyVal, ∀ q : ℚ, x = .tuple [a, b] → pyDiv a b = some q →
      to_float x = .ok (some q)) ∧
    (∀ a b : PyVal, x = .tuple [a, b] → pyEqInt b 0 = true →
      to_float x = .ok Option.none) := by
  refine ⟨?_, ?_, ?_, ?_, ?_⟩
  · cases hf : pyFloat x with
    | some q => rw [to_float_of_pyFloat hf]; simp
    | none =>
      by_cases htup : ∃ a b, x = PyVal.tuple [a, b]
      · obtain ⟨a, b, rfl⟩ := htup
        rw [to_float_tuple2]
        by_cases hz : pyEqInt b 0
        · simp [hz]
        · have hs := hx a b rfl (by simpa using hz)
          obtain ⟨q, hq⟩ := Option.isSome_iff_exists.mp hs
          simp [hz, hq]
      · push_neg at htup
        rw [to_float_not_tuple2 hf htup]
        simp
  · intro q h
    exact to_float_of_pyFloat h
  · intro hf hnt
    exact to_float_not_tuple2 hf hnt
  · rintro a b q rfl hdiv
    rw [to_float_tuple2]
    by_cases hz : pyEqInt b 0
    · rw [pyDiv_eq_none_of_zero a hz] at hdiv
      exact absurd hdiv (by simp)
    · simp [hz, hdiv]
  · rintro a b rfl hz
    rw [to_float_tuple2, if_pos hz]

/--
Claim C3 counterexample: on the two-element pair `("a", "b")` — whose
second element compares unequal to `0` — `float` fails, the tuple branch is
taken, and the division `"a" / "b"` raises, so `_to_float` does raise an
exception, contrary to the claim that it never raises for every input
whatsoever.
-/
theorem to_float_raises_counterexample :
    to_float (.tuple [.str "a", .str "b"]) = .error () := rfl

/-- Witness for `to_float_total_spec` at the directly numeric input `3`. -/
theorem to_float_total_spec_witness :
    to_float (PyVal.int 3) = .ok (some 3) :=
  (to_float_total_spec (PyVal.int 3)
      (fun _ _ h => absurd h (by simp))).2.1 3 rfl

/--
Claim C5: a numerator/denominator pair whose denominator compares equal to
`0` makes `_to_float` return `None`; the division branch is never reached
and no divide-by-zero failure occurs.
-/
theorem to_float_zero_denominator (a b : PyVal) (h : pyEqInt b 0 = true) :
    to_float (.tuple [a, b]) = .ok Option.none ∧
    to_float (.tuple [a, b]) ≠ .error () := by
  rw [to_float_tuple2, if_pos h]
  simp

/-- Witness for `to_float_zero_denominator` at the pair `(1, 0)`. -/
theorem to_float_zero_denominator_witness :
    to_float (.tuple [.int 1, .int 0]) = .ok Option.none :=
  (to_float_zero_denominator (.int 1) (.int 0) (by decide)).1

/--
Claim C2 (amended): `extract_exif_fields` never raises — it always returns
a record whose Photo Path field equals the input path; an open/read failure
and a missing EXIF block produce a record with every metadata field absent;
and a decode failure inside the body returns the record as already
populated at the point of failure, so fields assigned before the failure
(such as Make/Model) are retained rather than absent.
-/
theorem extract_total_spec (path : String) (i : ExifInput) :
    (extract_exif_fields path i).photoPath = path ∧
    extract_exif_fields path ExifInput.openFailure = emptyRecord path ∧
    extract_exif_fields path ExifInput.noExif = emptyRecord path ∧
    (∀ d : ImageRecord, extract_body path i = .error d →
       extract_exif_fields path i = d) :=
  ⟨extract_photoPath path i, rfl, rfl, fun d h => extract_of_error path i d h⟩

/--
Claim C2 counterexample: on `badGpsInput` the latitude conversion raises —
a decode failure on a malformed GPS sub-structure — yet the returned record
has its Make/Model field populated (`"Canon"`), not absent.
-/
theorem extract_partial_record_counterexample :
    extract_body "p" badGpsInput
        = .error { emptyRecord "p" with makeModel := some "Canon" } ∧
    (extract_exif_fields "p" badGpsInput).makeModel ≠ Option.none := by
  refine ⟨rfl, ?_⟩
  have h : (extract_exif_fields "p" badGpsInput).makeModel = some "Canon" := rfl
  rw [h]
  simp

/-- Witness for `extract_total_spec` at an unreadable file. -/
theorem extract_total_spec_witness :
    extract_exif_fields "q" ExifInput.openFailure = emptyRecord "q" :=
  (extract_total_spec "q" ExifInput.openFailure).2.2.2 (emptyRecord "q") rfl

/--
Claim C7: when the raw altitude value coerces to `v`, an altitude reference
of `1` stores `-v`, a reference of `0` or an absent reference stores `v`
unchanged, and when the coercion returns `None` the Altitude field is
absent (stated under the hypothesis that the latitude and longitude
conversions return normally, so that the altitude block is reached).
-/
theorem extract_altitude_ref_spec (path : String) (make model : Option String)
    (g : GpsMap) (rlat rlon : Option ℚ)
    (hlat : dms_to_decimal (g.gpsLatitude.getD .none) (g.gpsLatitudeRef.getD .none)
              = .ok rlat)
    (hlon : dms_to_decimal (g.gpsLongitude.getD .none) (g.gpsLongitudeRef.getD .none)
              = .ok rlon) :
    (∀ v : ℚ, to_float (g.gpsAltitude.getD .none) = .ok (some v) →
       (g.gpsAltitudeRef = some (.int 1) →
          (extract_exif_fields path (.withExif make model (some g))).altitude
            = some (-v)) ∧
       ((g.gpsAltitudeRef = some (.int 0) ∨ g.gpsAltitudeRef = Option.none) →
          (extract_exif_fields path (.withExif make model (some g))).altitude
            = some v)) ∧
    (to_float (g.gpsAltitude.getD .none) = .ok Option.none →
       (extract_exif_fields path (.withExif make model (some g))).altitude
         = Option.none) := by
  constructor
  · intro v hv
    have halt : (extract_exif_fields path (.withExif make model (some g))).altitude =
        some (if pyEqInt (g.gpsAltitudeRef.getD (.int 0)) 1 then -v else v) := by
      rw [extract_altitude path make model g rlat rlon hlat hlon, hv]
    constructor
    · intro h1
      rw [halt, h1]
      simp [pyEqInt]
    · intro h0
      rcases h0 with h0 | h0 <;> rw [halt, h0] <;> simp [pyEqInt]
  · intro hv
    rw [extract_altitude path make model g rlat rlon hlat hlon, hv]

/-- Witness for `extract_altitude_ref_spec`: raw altitude `100` with
reference `1` yields `-100`. -/
theorem extract_altitude_ref_spec_witness :
    (extract_exif_fields "w7"
        (.withExif Option.none Option.none
          (some { gpsEmpty with
                    gpsAltitude := some (.int 100)
                    gpsAltitudeRef := some (.int 1) }))).altitude = some (-100) :=
  ((extract_altitude_ref_spec "w7" Option.none Option.none
      { gpsEmpty with gpsAltitude := some (.int 100), gpsAltitudeRef := some (.int 1) }
      Option.none Option.none rfl rfl).1 100 rfl).1 rfl

/--
Claim C8: the combined Make/Model field equals the whitespace-trimmed make
and model values joined by a single space when both are non-empty after
trimming, the single non-empty trimmed value when only one is non-empty,
and is absent (not an empty string) when both are empty or missing —
whatever the GPS data and however the GPS processing ends.
-/
theorem extract_makeModel_spec (path : String) (make model : Option String)
    (gps : Option GpsMap) :
    (extract_exif_fields path (.withExif make model gps)).makeModel =
      (if (make.map pyStrip).getD "" = "" then
        (if (model.map pyStrip).getD "" = "" then Option.none
         else some ((model.map pyStrip).getD ""))
      else if (model.map pyStrip).getD "" = "" then
        some ((make.map pyStrip).getD "")
      else
        some ((make.map pyStrip).getD "" ++ " " ++ (model.map pyStrip).getD "")) := by
  rw [extract_makeModel path make model gps, makeModelField_spec]

/--
Claim C10: altitude negation is triggered only when the altitude reference
compares equal to the integer `1` under Python `==`: whenever that
comparison is false the coerced altitude is stored unchanged, and in
particular the one-byte string `b'\x01'` and the text string `"1"` do not
compare equal to `1`.
-/
theorem altitude_negation_only_int_one (path : String) (make model : Option String)
    (g : GpsMap) (rlat rlon : Option ℚ) (v : ℚ)
    (hlat : dms_to_decimal (g.gpsLatitude.getD .none) (g.gpsLatitudeRef.getD .none)
              = .ok rlat)
    (hlon : dms_to_decimal (g.gpsLongitude.getD .none) (g.gpsLongitudeRef.getD .none)
              = .ok rlon)
    (hv : to_float (g.gpsAltitude.getD .none) = .ok (some v))
    (href : pyEqInt (g.gpsAltitudeRef.getD (.int 0)) 1 = false) :
    (extract_exif_fields path (.withExif make model (some g))).altitude = some v ∧
    pyEqInt (.bytes [1]) 1 = false ∧ pyEqInt (.str "1") 1 = false := by
  refine ⟨?_, rfl, rfl⟩
  rw [extract_altitude path make model g rlat rlon hlat hlon, hv, href]
  simp

/-- Witness for `altitude_negation_only_int_one`: the reference `b'\x01'`
leaves raw altitude `100` positive. -/
theorem altitude_negation_only_int_one_witness :
    (extract_exif_fields "w10"
        (.withExif Option.none Option.none
          (some { gpsEmpty with
                    gpsAltitude := some (.int 100)
                    gpsAltitudeRef := some (.bytes [1]) }))).altitude = some 100 :=
  (altitude_negation_only_int_one "w10" Option.none Option.none
      { gpsEmpty with gpsAltitude := some (.int 100), gpsAltitudeRef := some (.bytes [1]) }
      Option.none Option.none 100 rfl rfl rfl rfl).1

end CampusGps
